import Mathlib

/-!
Shallow embedding of the redis-rust repository (src/main.rs, src/storage.rs).

Modelling conventions:
  * Rust `SystemTime` is the pair of seconds/nanoseconds since the epoch;
    `Duration` likewise.  Comparisons go through the total nanosecond value,
    which agrees with Rust's ordering on normalized values.
  * The JSON layer of `serde_json` is modelled at the level of a JSON AST
    (`Json` below): `serde_json::to_string` becomes `encodeStorageData`,
    `serde_json::from_str::<Option<StorageData>>` becomes
    `decodeOptStorageData`, and the file on disk is an `Option Json`
    (`none` = the file is missing or unreadable).
  * Rust panics (`unwrap`, `expect` on an error value) are explicit
    constructors of the outcome types (`ParseOutcome.panic` etc.).
  * `HashMap<String, CommandData>` is an association list with
    first-match lookup and replace-or-append insert.
-/

namespace RedisRust

/-- Rust std::time::SystemTime, as seconds/nanoseconds since the epoch
(serde serializes it as an object with fields secs_since_epoch and
nanos_since_epoch). -/
structure SystemTime where
  secs : Nat
  nanos : Nat
deriving DecidableEq, Repr

/-- Rust std::time::Duration, as a seconds/nanoseconds pair (serde
serializes it as an object with fields secs and nanos). -/
structure Duration where
  secs : Nat
  nanos : Nat
deriving DecidableEq, Repr

/-- Total value of a Duration in nanoseconds. -/
def Duration.toNanos (d : Duration) : Nat := d.secs * 1000000000 + d.nanos

/-- Total value of a SystemTime in nanoseconds since the epoch. -/
def SystemTime.toNanos (t : SystemTime) : Nat := t.secs * 1000000000 + t.nanos

/-- Rust Duration::from_millis. -/
def Duration.from_millis (ms : Nat) : Duration :=
  ⟨ms / 1000, (ms % 1000) * 1000000⟩

/-- storage.rs CommandData: one stored entry. -/
structure CommandData where
  key : String
  value : String
  created_at : SystemTime
  expires_for : Option Duration
deriving DecidableEq, Repr

/-- storage.rs StorageData: the whole snapshot, a HashMap from key to entry
modelled as an association list (first-match lookup). -/
structure StorageData where
  data : List (String × CommandData)
deriving DecidableEq, Repr

/-- HashMap::get on the association list: first entry with the given key. -/
def hmGet (m : List (String × CommandData)) (k : String) : Option CommandData :=
  match m with
  | [] => none
  | (k0, v0) :: rest => if k0 = k then some v0 else hmGet rest k

/-- HashMap::insert on the association list: replace the entry for the key
if present, otherwise append. -/
def hmInsert (m : List (String × CommandData)) (k : String) (v : CommandData) :
    List (String × CommandData) :=
  match m with
  | [] => [(k, v)]
  | (k0, v0) :: rest => if k0 = k then (k, v) :: rest else (k0, v0) :: hmInsert rest k v

/-- JSON values, the target of serde_json serialization.  Numbers are
naturals, which covers every number the snapshot format writes. -/
inductive Json where
  | null
  | num (n : Nat)
  | str (s : String)
  | arr (xs : List Json)
  | obj (fields : List (String × Json))

/-- First JSON object field with the given name (serde looks fields up by
name, independent of order). -/
def jLookup (fields : List (String × Json)) (name : String) : Option Json :=
  match fields with
  | [] => none
  | (k, v) :: rest => if k = name then some v else jLookup rest name

/-- serde serialization of SystemTime. -/
def encodeTime (t : SystemTime) : Json :=
  .obj [("secs_since_epoch", .num t.secs), ("nanos_since_epoch", .num t.nanos)]

/-- serde serialization of Duration. -/
def encodeDuration (d : Duration) : Json :=
  .obj [("secs", .num d.secs), ("nanos", .num d.nanos)]

/-- serde serialization of CommandData (fields in declaration order;
None serializes as null). -/
def encodeCommandData (cd : CommandData) : Json :=
  .obj [("key", .str cd.key),
        ("value", .str cd.value),
        ("created_at", encodeTime cd.created_at),
        ("expires_for", match cd.expires_for with
                        | none => .null
                        | some d => encodeDuration d)]

/-- serde_json::to_string(&storage_data): the JSON payload that
storage.rs write_store persists (write_store itself only truncates the
file and writes these bytes). -/
def encodeStorageData (s : StorageData) : Json :=
  .obj [("data", .obj (s.data.map (fun p => (p.1, encodeCommandData p.2))))]

/-- serde deserialization of a Nat-valued JSON number. -/
def decodeNat (j : Json) : Option Nat :=
  match j with
  | .num n => some n
  | _ => none

/-- serde deserialization of a JSON string. -/
def decodeStr (j : Json) : Option String :=
  match j with
  | .str s => some s
  | _ => none

/-- serde deserialization of SystemTime. -/
def decodeTime (j : Json) : Option SystemTime :=
  match j with
  | .obj f =>
    match jLookup f "secs_since_epoch", jLookup f "nanos_since_epoch" with
    | some js, some jn =>
      match decodeNat js, decodeNat jn with
      | some s, some n => some ⟨s, n⟩
      | _, _ => none
    | _, _ => none
  | _ => none

/-- serde deserialization of Duration. -/
def decodeDuration (j : Json) : Option Duration :=
  match j with
  | .obj f =>
    match jLookup f "secs", jLookup f "nanos" with
    | some js, some jn =>
      match decodeNat js, decodeNat jn with
      | some s, some n => some ⟨s, n⟩
      | _, _ => none
    | _, _ => none
  | _ => none

/-- serde deserialization of the optional expires_for field: a missing or
null field is None, anything else must decode as a Duration. -/
def decodeTtlField (fields : List (String × Json)) : Option (Option Duration) :=
  match jLookup fields "expires_for" with
  | none => some none
  | some .null => some none
  | some j =>
    match decodeDuration j with
    | some d => some (some d)
    | none => none

/-- serde deserialization of CommandData. -/
def decodeCommandData (j : Json) : Option CommandData :=
  match j with
  | .obj f =>
    match jLookup f "key", jLookup f "value", jLookup f "created_at" with
    | some jk, some jv, some jc =>
      match decodeStr jk, decodeStr jv, decodeTime jc, decodeTtlField f with
      | some k, some v, some c, some e => some ⟨k, v, c, e⟩
      | _, _, _, _ => none
    | _, _, _ => none
  | _ => none

/-- serde deserialization of the entries of the data map. -/
def decodeEntries (fields : List (String × Json)) :
    Option (List (String × CommandData)) :=
  match fields with
  | [] => some []
  | (k, j) :: rest =>
    match decodeCommandData j, decodeEntries rest with
    | some cd, some tail => some ((k, cd) :: tail)
    | _, _ => none

/-- serde deserialization of StorageData. -/
def decodeStorageData (j : Json) : Option StorageData :=
  match j with
  | .obj f =>
    match jLookup f "data" with
    | some (.obj entries) =>
      match decodeEntries entries with
      | some m => some ⟨m⟩
      | none => none
    | _ => none
  | _ => none

/-- serde_json::from_str::<Option<StorageData>>: JSON null decodes to
None, anything else must decode as a StorageData. -/
def decodeOptStorageData (j : Json) : Option (Option StorageData) :=
  match j with
  | .null => some none
  | _ =>
    match decodeStorageData j with
    | some d => some (some d)
    | none => none

/-- Outcome of storage.rs read_store: panic (the unwrap on a serde decode
error), no store (missing file, or a stored JSON null), or a decoded
snapshot. -/
inductive ReadOutcome where
  | panic
  | noStore
  | store (d : StorageData)
deriving DecidableEq, Repr

/-- storage.rs read_store, with the file contents passed in explicitly
(none = fs::read_to_string failed, e.g. the file does not exist). -/
def read_store (file : Option Json) : ReadOutcome :=
  match file with
  | none => .noStore
  | some j =>
    match decodeOptStorageData j with
    | none => .panic
    | some none => .noStore
    | some (some d) => .store d

/-- main.rs RedisCommand. -/
inductive RedisCommand where
  | Ping
  | Echo
  | Set
  | Get
deriving DecidableEq, Repr

/-- ASCII lowercasing, the effect of Rust str::to_lowercase on the command
names that matter here (all ASCII). -/
def strToLower (s : String) : String := String.mk (s.toList.map Char.toLower)

/-- main.rs RedisCommand::from_str: none models Err(Invalid(s)). -/
def RedisCommand.from_str (s : String) : Option RedisCommand :=
  let t := strToLower s
  if t = "ping" then some .Ping
  else if t = "echo" then some .Echo
  else if t = "set" then some .Set
  else if t = "get" then some .Get
  else none

/-- main.rs RedisCommandValue. -/
structure RedisCommandValue where
  command : RedisCommand
  param_1 : Option String
  param_2 : Option String
  expires_for : Option Duration
deriving DecidableEq, Repr

/-- Rust str::parse::<usize> without the optional sign: all digits,
nonempty, value below 2^64 (64-bit usize). -/
def parseUsizeDigits (cs : List Char) : Option Nat :=
  if cs.isEmpty then none
  else if cs.all Char.isDigit then
    let n := cs.foldl (fun a c => a * 10 + (c.toNat - 48)) 0
    if n < 2 ^ 64 then some n else none
  else none

/-- Rust str::parse::<usize>: an optional leading plus sign, then digits. -/
def parseUsize (s : String) : Option Nat :=
  match s.toList with
  | '+' :: rest => parseUsizeDigits rest
  | cs => parseUsizeDigits cs

/-- Rust s.split('*').collect::<String>(): drops every star character. -/
def removeStars (s : String) : String :=
  String.mk (s.toList.filter (fun c => c ≠ '*'))

/-- Outcome of one call to main.rs parse_redis_protocol: needMore models
the Rust None return (keep feeding lines), panic models an unwrap on an
error (bad count header, unknown command name, bad PX millis), parsed
models Some(RedisCommandValue). -/
inductive ParseOutcome where
  | needMore
  | panic
  | parsed (v : RedisCommandValue)
deriving DecidableEq, Repr

/-- RedisCommand::from_str(command).unwrap() inside the parser: panic on an
unknown name, otherwise continue with the command. -/
def withCommand (s : String) (k : RedisCommand → ParseOutcome) : ParseOutcome :=
  match RedisCommand.from_str s with
  | none => .panic
  | some c => k c

/-- main.rs parse_redis_protocol on the accumulated line queue. -/
def parse_redis_protocol (q : List String) : ParseOutcome :=
  if q.length < 3 then .needMore
  else
    match parseUsize (removeStars q.headI) with
    | none => .panic
    | some n =>
      if n = 1 then
        match q with
        | [_, _, command] =>
          withCommand command (fun c => .parsed ⟨c, none, none, none⟩)
        | _ => .needMore
      else if n = 2 then
        match q with
        | [_, _, command, _, value] =>
          withCommand command (fun c => .parsed ⟨c, none, some value, none⟩)
        | _ => .needMore
      else if n = 3 then
        match q with
        | [_, _, command, _, key, _, value] =>
          withCommand command (fun c => .parsed ⟨c, some key, some value, none⟩)
        | _ => .needMore
      else if n = 5 then
        match q with
        | [_, _, command, _, key, _, value, _, _, _, expired] =>
          withCommand command (fun c =>
            match parseUsize expired with
            | none => .panic
            | some ms => .parsed ⟨c, some key, some value, some (Duration.from_millis ms)⟩)
        | _ => .needMore
      else .needMore

/-- main.rs handle_stream_process, the per-line queue step: push the line,
try to parse, and clear the queue exactly when a command was produced. -/
def push_and_parse (q : List String) (l : String) :
    List String × ParseOutcome :=
  let q2 := q ++ [l]
  match parse_redis_protocol q2 with
  | .parsed v => ([], .parsed v)
  | o => (q2, o)

/-- Elapsed nanoseconds of created_at at time now: SystemTime::elapsed
returns Err when the clock went backwards and the code maps that to a zero
duration with unwrap_or, which Nat subtraction models exactly. -/
def elapsedNanos (created_at now : SystemTime) : Nat :=
  now.toNanos - created_at.toNanos

/-- main.rs filter_expired: keep the entry unless its elapsed age strictly
exceeds the stored expiration. -/
def filter_expired (data : CommandData) (now : SystemTime) : Option CommandData :=
  match data.expires_for with
  | none => some data
  | some expiration =>
    if elapsedNanos data.created_at now > expiration.toNanos then none
    else some data

/-- Outcome of a storage read path that can panic. -/
inductive GetOutcome where
  | panic
  | result (r : Option CommandData)
deriving DecidableEq, Repr

/-- storage.rs get: reload the snapshot from the file and look the key up;
the entry is returned as a clone, the store is not modified. -/
def storage_get (key : String) (file : Option Json) : GetOutcome :=
  match read_store file with
  | .panic => .panic
  | .noStore => .result none
  | .store d => .result (hmGet d.data key)

/-- Bulk-string reply with the value's byte length, as format! produces. -/
def bulkReply (v : String) : String :=
  "$" ++ toString v.utf8ByteSize ++ "\r\n" ++ v ++ "\r\n"

/-- Outcome of producing a response: panic models an unwrap on a missing
parameter or a corrupt store, reply is the bytes written back. -/
inductive RespOutcome where
  | panic
  | reply (s : String)
deriving DecidableEq, Repr

/-- main.rs RedisCommandValue::to_response, with the persisted file and the
current time passed in explicitly. -/
def to_response (v : RedisCommandValue) (file : Option Json) (now : SystemTime) :
    RespOutcome :=
  match v.command with
  | .Ping => .reply "+PONG\r\n"
  | .Set => .reply "+OK\r\n"
  | .Get =>
    match v.param_2 with
    | none => .panic
    | some key =>
      match storage_get key file with
      | .panic => .panic
      | .result (some cd) =>
        if (filter_expired cd now).isSome then .reply (bulkReply cd.value)
        else .reply "$-1\r\n"
      | .result none => .reply "$-1\r\n"
  | .Echo =>
    match v.param_2 with
    | none => .panic
    | some a => .reply (bulkReply a)

/-- Result of storage.rs add: panic (read_store unwrap on corrupt data),
ok (write succeeded, Ok(true)) or err (write failed,
Err(SaveUnsuccessful)); both carry the snapshot that was serialized and
handed to write_store. -/
inductive AddResult where
  | panic
  | ok (written : StorageData)
  | err (written : StorageData)
deriving DecidableEq, Repr

/-- The snapshot produced by storage.rs add from a prior snapshot: insert a
fresh CommandData whose key field is the map key. -/
def add_entry (d : StorageData) (key value : String) (now : SystemTime)
    (expires_for : Option Duration) : StorageData :=
  ⟨hmInsert d.data key ⟨key, value, now, expires_for⟩⟩

/-- storage.rs add: reload the snapshot (empty when absent), insert the new
entry, serialize and write; writeOk says whether write_store returned Ok. -/
def storage_add (key value : String) (expires_for : Option Duration)
    (file : Option Json) (now : SystemTime) (writeOk : Bool) : AddResult :=
  match read_store file with
  | .panic => .panic
  | .noStore =>
    let d := add_entry ⟨[]⟩ key value now expires_for
    if writeOk then .ok d else .err d
  | .store d0 =>
    let d := add_entry d0 key value now expires_for
    if writeOk then .ok d else .err d

/-- Outcome of the dispatch step in main.rs handle_stream_process after a
command was parsed: panic models an expect/unwrap firing (the worker
thread dies and the connection closes with nothing written), reply is the
response written back. -/
inductive StepOutcome where
  | panic
  | reply (s : String)
deriving DecidableEq, Repr

/-- Lift a response outcome into the dispatch outcome. -/
def respToStep (r : RespOutcome) : StepOutcome :=
  match r with
  | .panic => .panic
  | .reply s => .reply s

/-- main.rs handle_stream_process, the dispatch of one parsed command: when
param_1 is present the code first calls storage_add and applies
.expect("data was saved"), so a failed or panicking save is a panic and no
response is written; otherwise (and after a successful save) the response
bytes come from to_response against the current file contents. -/
def handle_command (v : RedisCommandValue) (file : Option Json)
    (now : SystemTime) (writeOk : Bool) : StepOutcome :=
  match v.param_1 with
  | none => respToStep (to_response v file now)
  | some key =>
    match v.param_2 with
    | none => .panic
    | some value =>
      match storage_add key value v.expires_for file now writeOk with
      | .panic => .panic
      | .err _ => .panic
      | .ok d => respToStep (to_response v (some (encodeStorageData d)) now)

/-- A complete valid wire frame, as its lines with terminators stripped: a
star header with the declared count, length headers matching each token's
byte length, a known command name, and for the five-token form a px marker
with numeric milliseconds. -/
def validBulk (hdr tok : String) : Bool :=
  hdr == "$" ++ toString tok.utf8ByteSize

/-- Valid complete frames for the supported arities 1, 2, 3 and 5. -/
def validFrame (lines : List String) : Bool :=
  match lines with
  | [h, l1, c] =>
    h == "*1" && validBulk l1 c && (RedisCommand.from_str c).isSome
  | [h, l1, c, l2, a] =>
    h == "*2" && validBulk l1 c && validBulk l2 a &&
      (RedisCommand.from_str c).isSome
  | [h, l1, c, l2, k, l3, v] =>
    h == "*3" && validBulk l1 c && validBulk l2 k && validBulk l3 v &&
      (RedisCommand.from_str c).isSome
  | [h, l1, c, l2, k, l3, v, l4, p, l5, ms] =>
    h == "*5" && validBulk l1 c && validBulk l2 k && validBulk l3 v &&
      validBulk l4 p && validBulk l5 ms && (RedisCommand.from_str c).isSome &&
      strToLower p == "px" && (parseUsize ms).isSome
  | _ => false

lemma decodeCommandData_encode (cd : CommandData) :
    decodeCommandData (encodeCommandData cd) = some cd := by
  obtain ⟨k, v, ⟨cs, cn⟩, e⟩ := cd
  cases e <;> rfl

lemma decodeEntries_encode (l : List (String × CommandData)) :
    decodeEntries (l.map (fun p => (p.1, encodeCommandData p.2))) = some l := by
  induction l with
  | nil => rfl
  | cons p rest ih =>
    simp [decodeEntries, decodeCommandData_encode, ih]

lemma decodeStorageData_encode (s : StorageData) :
    decodeStorageData (encodeStorageData s) = some s := by
  obtain ⟨m⟩ := s
  simp [encodeStorageData, decodeStorageData, jLookup, decodeEntries_encode]

lemma read_store_encode (s : StorageData) :
    read_store (some (encodeStorageData s)) = .store s := by
  simp [read_store, encodeStorageData, decodeOptStorageData]
  have h := decodeStorageData_encode s
  simp [encodeStorageData] at h
  simp [h]

lemma hmGet_hmInsert_same (m : List (String × CommandData)) (k : String)
    (v : CommandData) : hmGet (hmInsert m k v) k = some v := by
  induction m with
  | nil => simp [hmInsert, hmGet]
  | cons p rest ih =>
    obtain ⟨k0, v0⟩ := p
    by_cases h : k0 = k
    · simp [hmInsert, h, hmGet]
    · simp [hmInsert, h, hmGet, ih]

lemma hmGet_hmInsert_other (m : List (String × CommandData)) (k k2 : String)
    (v : CommandData) (h : k2 ≠ k) :
    hmGet (hmInsert m k v) k2 = hmGet m k2 := by
  induction m with
  | nil => simp [hmInsert, hmGet, Ne.symm h]
  | cons p rest ih =>
    obtain ⟨k0, v0⟩ := p
    by_cases h0 : k0 = k
    · subst h0
      simp [hmInsert, hmGet, Ne.symm h]
    · simp [hmInsert, h0, hmGet, ih]

lemma push_and_parse_complete (q : List String) (l : String)
    (v : RedisCommandValue) (h : parse_redis_protocol (q ++ [l]) = .parsed v) :
    push_and_parse q l = ([], .parsed v) := by
  simp [push_and_parse, h]

/-- C5: the persistence save/load pair is a round trip: loading the JSON
payload that write_store persisted for a snapshot yields a mapping equal
to that snapshot. -/
theorem save_load_round_trip (s : StorageData) :
    read_store (some (encodeStorageData s)) = .store s :=
  read_store_encode s

/-- C6 counterexample: durable contents that cannot be decoded as a
snapshot make read_store panic (the unwrap on the serde error); no
PersistenceError::Corrupt value is ever reported to a caller (the code has
no such variant, only StorageError::SaveUnsuccessful). -/
theorem corrupt_snapshot_panics_cex :
    read_store (some (Json.str "not a snapshot")) = .panic := by rfl

/-- C6 amended: on any durable contents that cannot be decoded as the
snapshot type, read_store panics via unwrap, killing the calling worker,
instead of reporting a Corrupt error to the caller; only a missing or
unreadable file is treated as no store. -/
theorem corrupt_snapshot_behavior (j : Json)
    (h : decodeOptStorageData j = none) :
    read_store (some j) = .panic ∧ read_store none = .noStore := by
  constructor
  · simp [read_store, h]
  · rfl

/-- Witness for the amended C6 theorem at a concrete corrupt payload. -/
theorem corrupt_snapshot_behavior_witness :
    read_store (some (Json.str "x")) = .panic ∧ read_store none = .noStore :=
  corrupt_snapshot_behavior (Json.str "x") (by rfl)

/-- C1 counterexample: an entry whose age exactly equals its TTL is still
returned by get, because filter_expired only drops an entry whose elapsed
age strictly exceeds the expiration; the claim says age equal to the TTL
is reported absent via the null bulk reply. -/
theorem get_ttl_boundary_cex :
    elapsedNanos ⟨0, 0⟩ ⟨5, 0⟩ = Duration.toNanos ⟨5, 0⟩ ∧
    to_response ⟨.Get, none, some "k", none⟩
      (some (encodeStorageData
        ⟨[("k", ⟨"k", "hello", ⟨0, 0⟩, some ⟨5, 0⟩⟩)]⟩)) ⟨5, 0⟩
      = .reply "$5\r\nhello\r\n" :=
  ⟨by rfl, by rfl⟩

/-- C1 amended: get returns the stored value exactly when the entry has no
TTL or its elapsed age is at most the TTL, and reports the entry absent
via the null bulk reply only when the age strictly exceeds the TTL; get
never modifies the store, it is a pure lookup of the persisted mapping. -/
theorem get_ttl_semantics (d : StorageData) (key : String) (cd : CommandData)
    (now : SystemTime) (hfind : hmGet d.data key = some cd) :
    storage_get key (some (encodeStorageData d)) = .result (some cd) ∧
    (cd.expires_for = none →
      to_response ⟨.Get, none, some key, none⟩ (some (encodeStorageData d)) now
        = .reply (bulkReply cd.value)) ∧
    (∀ t, cd.expires_for = some t →
      (elapsedNanos cd.created_at now ≤ t.toNanos →
        to_response ⟨.Get, none, some key, none⟩ (some (encodeStorageData d)) now
          = .reply (bulkReply cd.value)) ∧
      (t.toNanos < elapsedNanos cd.created_at now →
        to_response ⟨.Get, none, some key, none⟩ (some (encodeStorageData d)) now
          = .reply "$-1\r\n")) := by
  have hg : storage_get key (some (encodeStorageData d)) = .result (some cd) := by
    simp [storage_get, read_store_encode, hfind]
  refine ⟨hg, ?_, ?_⟩
  · intro hn
    have hf : filter_expired cd now = some cd := by
      simp [filter_expired, hn]
    simp [to_response, hg, hf]
  · intro t ht
    constructor
    · intro hle
      have hf : filter_expired cd now = some cd := by
        simp only [filter_expired, ht]
        rw [if_neg (by omega)]
      simp [to_response, hg, hf]
    · intro hlt
      have hf : filter_expired cd now = none := by
        simp only [filter_expired, ht]
        rw [if_pos (by omega)]
      simp [to_response, hg, hf]

/-- Witness for the amended C1 theorem: a fresh no-TTL entry and a live
TTL entry are both returned. -/
theorem get_ttl_semantics_witness :
    hmGet [("k", (⟨"k", "v", ⟨0, 0⟩, none⟩ : CommandData))] "k"
      = some ⟨"k", "v", ⟨0, 0⟩, none⟩ ∧
    to_response ⟨.Get, none, some "k", none⟩
      (some (encodeStorageData ⟨[("k", ⟨"k", "v", ⟨0, 0⟩, none⟩)]⟩)) ⟨1, 0⟩
      = .reply (bulkReply "v") := by
  have h := get_ttl_semantics ⟨[("k", ⟨"k", "v", ⟨0, 0⟩, none⟩)]⟩ "k"
    ⟨"k", "v", ⟨0, 0⟩, none⟩ ⟨1, 0⟩ (by rfl)
  exact ⟨by rfl, h.2.1 rfl⟩

/-- C7: the dispatcher reproduces the wire examples: PING replies +PONG,
ECHO hey replies the three-byte bulk string hey, SET pear orange saves and
replies +OK, GET pear then replies the six-byte bulk string orange, and
GET of an absent key replies the null bulk. -/
theorem wire_examples :
    parse_redis_protocol ["*1", "$4", "PING"]
      = .parsed ⟨.Ping, none, none, none⟩ ∧
    to_response ⟨.Ping, none, none, none⟩ none ⟨0, 0⟩ = .reply "+PONG\r\n" ∧
    parse_redis_protocol ["*2", "$4", "ECHO", "$3", "hey"]
      = .parsed ⟨.Echo, none, some "hey", none⟩ ∧
    to_response ⟨.Echo, none, some "hey", none⟩ none ⟨0, 0⟩
      = .reply "$3\r\nhey\r\n" ∧
    parse_redis_protocol ["*3", "$3", "SET", "$4", "pear", "$6", "orange"]
      = .parsed ⟨.Set, some "pear", some "orange", none⟩ ∧
    handle_command ⟨.Set, some "pear", some "orange", none⟩ none ⟨0, 0⟩ true
      = .reply "+OK\r\n" ∧
    storage_add "pear" "orange" none none ⟨0, 0⟩ true
      = .ok ⟨[("pear", ⟨"pear", "orange", ⟨0, 0⟩, none⟩)]⟩ ∧
    parse_redis_protocol ["*2", "$3", "GET", "$4", "pear"]
      = .parsed ⟨.Get, none, some "pear", none⟩ ∧
    to_response ⟨.Get, none, some "pear", none⟩
      (some (encodeStorageData ⟨[("pear", ⟨"pear", "orange", ⟨0, 0⟩, none⟩)]⟩))
      ⟨100, 0⟩ = .reply "$6\r\norange\r\n" ∧
    to_response ⟨.Get, none, some "missing", none⟩
      (some (encodeStorageData ⟨[("pear", ⟨"pear", "orange", ⟨0, 0⟩, none⟩)]⟩))
      ⟨100, 0⟩ = .reply "$-1\r\n" :=
  ⟨rfl, rfl, rfl, rfl, rfl, rfl, rfl, rfl, rfl, rfl⟩

/-- C2 counterexample: a SET whose durable save fails makes the dispatch
step panic (expect on the add error): no error reply is produced and the
connection worker dies, against the claim that an error response is sent
and the connection stays open. -/
theorem set_save_failure_cex :
    handle_command ⟨.Set, some "pear", some "orange", none⟩ none ⟨0, 0⟩ false
      = .panic := by rfl

/-- C2 amended: whenever the durable save fails for a command carrying a
key (every SET), the dispatch step panics via the expect on add: the
worker thread dies, nothing is written back (so the failure is never
reported as +OK, but no error reply is sent either) and the connection
closes. -/
theorem set_save_failure (v : RedisCommandValue) (file : Option Json)
    (now : SystemTime) (key : String) (h : v.param_1 = some key) :
    handle_command v file now false = .panic := by
  simp only [handle_command, h]
  cases hv2 : v.param_2 with
  | none => rfl
  | some value =>
    cases hr : read_store file with
    | panic => simp [storage_add, hr]
    | noStore => simp [storage_add, hr]
    | store d0 => simp [storage_add, hr]

/-- Witness for the amended C2 theorem at a concrete SET. -/
theorem set_save_failure_witness :
    handle_command ⟨.Set, some "a", some "b", none⟩ none ⟨0, 0⟩ false
      = .panic :=
  set_save_failure ⟨.Set, some "a", some "b", none⟩ none ⟨0, 0⟩ "a" rfl

/-- C3 counterexample: a complete frame carrying an unknown command name
makes the parser panic (from_str yields Err(Invalid) and the parser
unwraps it); no UnknownCommand error value reaches the dispatcher and no
error reply is produced. -/
theorem unknown_command_cex :
    parse_redis_protocol ["*1", "$4", "FOOO"] = .panic := by rfl

/-- C3 amended: for every supported arity, a complete frame whose command
token is not a supported name makes the parser panic on the unwrap of
from_str (which returns the Invalid variant, not Unknown): the worker dies
and the connection closes without an error reply. -/
theorem unknown_command_panics (l1 l2 l3 l4 l5 c k v p ms : String)
    (h : RedisCommand.from_str c = none) :
    parse_redis_protocol ["*1", l1, c] = .panic ∧
    parse_redis_protocol ["*2", l1, c, l2, v] = .panic ∧
    parse_redis_protocol ["*3", l1, c, l2, k, l3, v] = .panic ∧
    parse_redis_protocol ["*5", l1, c, l2, k, l3, v, l4, p, l5, ms]
      = .panic := by
  have e1 : parseUsize (removeStars "*1") = some 1 := by rfl
  have e2 : parseUsize (removeStars "*2") = some 2 := by rfl
  have e3 : parseUsize (removeStars "*3") = some 3 := by rfl
  have e5 : parseUsize (removeStars "*5") = some 5 := by rfl
  refine ⟨?_, ?_, ?_, ?_⟩
  · simp [parse_redis_protocol, List.headI, e1, withCommand, h]
  · simp [parse_redis_protocol, List.headI, e2, withCommand, h]
  · simp [parse_redis_protocol, List.headI, e3, withCommand, h]
  · simp [parse_redis_protocol, List.headI, e5, withCommand, h]

/-- Witness for the amended C3 theorem at a concrete unknown command. -/
theorem unknown_command_panics_witness :
    parse_redis_protocol ["*2", "$4", "WHAT", "$3", "hey"] = .panic :=
  (unknown_command_panics "$4" "$3" "$1" "$2" "$3" "WHAT" "k" "hey" "px" "10"
    (by rfl)).2.1

/-- C4 counterexample: a frame whose bulk length header declares 99 for
the four-byte token ECHO is accepted and parsed as a normal ECHO command;
no Malformed failure occurs. -/
theorem length_header_ignored_cex :
    parse_redis_protocol ["*2", "$99", "ECHO", "$3", "hey"]
      = .parsed ⟨.Echo, none, some "hey", none⟩ ∧
    ("ECHO" : String).utf8ByteSize ≠ 99 :=
  ⟨by rfl, by decide⟩

/-- C4 amended: the parser never inspects the bulk length header lines:
for a known command, the frames of every supported arity (1, 2, 3 and 5)
parse to the same command value for every choice of length-header lines,
so a frame whose declared length mismatches its token is accepted exactly
like a correct one (the code has no Malformed error at all). -/
theorem length_headers_ignored (l1 l2 l3 l4 l5 c k v p ms : String)
    (cmd : RedisCommand) (msv : Nat)
    (h : RedisCommand.from_str c = some cmd)
    (hms : parseUsize ms = some msv) :
    parse_redis_protocol ["*1", l1, c]
      = .parsed ⟨cmd, none, none, none⟩ ∧
    parse_redis_protocol ["*2", l1, c, l2, v]
      = .parsed ⟨cmd, none, some v, none⟩ ∧
    parse_redis_protocol ["*3", l1, c, l2, k, l3, v]
      = .parsed ⟨cmd, some k, some v, none⟩ ∧
    parse_redis_protocol ["*5", l1, c, l2, k, l3, v, l4, p, l5, ms]
      = .parsed ⟨cmd, some k, some v, some (Duration.from_millis msv)⟩ := by
  have e1 : parseUsize (removeStars "*1") = some 1 := by rfl
  have e2 : parseUsize (removeStars "*2") = some 2 := by rfl
  have e3 : parseUsize (removeStars "*3") = some 3 := by rfl
  have e5 : parseUsize (removeStars "*5") = some 5 := by rfl
  refine ⟨?_, ?_, ?_, ?_⟩
  · simp [parse_redis_protocol, List.headI, e1, withCommand, h]
  · simp [parse_redis_protocol, List.headI, e2, withCommand, h]
  · simp [parse_redis_protocol, List.headI, e3, withCommand, h]
  · simp [parse_redis_protocol, List.headI, e5, withCommand, h, hms]

/-- Witness for the amended C4 theorem: frames of all four arities with
mismatched length headers are all accepted. -/
theorem length_headers_ignored_witness :
    parse_redis_protocol ["*1", "$9", "SET"]
      = .parsed ⟨.Set, none, none, none⟩ ∧
    parse_redis_protocol ["*2", "$9", "SET", "$0", "orange"]
      = .parsed ⟨.Set, none, some "orange", none⟩ ∧
    parse_redis_protocol ["*3", "$9", "SET", "$0", "pear", "$7", "orange"]
      = .parsed ⟨.Set, some "pear", some "orange", none⟩ ∧
    parse_redis_protocol
      ["*5", "$9", "SET", "$0", "pear", "$7", "orange", "$123", "px", "$1", "100"]
      = .parsed ⟨.Set, some "pear", some "orange", some (Duration.from_millis 100)⟩ :=
  length_headers_ignored "$9" "$0" "$7" "$123" "$1" "SET" "pear" "orange"
    "px" "100" .Set 100 (by rfl) (by rfl)

/-- C9 counterexample: a three-line queue whose header declares four
arguments is answered with None (wait for more input), not with a
Malformed protocol error; the parser has no error value for this case. -/
theorem unsupported_arity_cex :
    parse_redis_protocol ["*4", "$3", "FOO"] = .needMore := by rfl

/-- C9 amended: whenever the queue holds at least three lines and the
count header parses to an N other than 1, 2, 3 or 5, the parser returns
None (modelled needMore): it silently keeps waiting for further input and
never reports a Malformed error. -/
theorem unsupported_arity_waits (h0 : String) (rest : List String) (n : Nat)
    (hlen : 3 ≤ (h0 :: rest).length)
    (hn : parseUsize (removeStars h0) = some n)
    (h1 : n ≠ 1) (h2 : n ≠ 2) (h3 : n ≠ 3) (h5 : n ≠ 5) :
    parse_redis_protocol (h0 :: rest) = .needMore := by
  have hlt : ¬ (h0 :: rest).length < 3 := by omega
  simp [parse_redis_protocol, hlt, List.headI, hn, h1, h2, h3, h5]

/-- Witness for the amended C9 theorem at a concrete arity-4 header. -/
theorem unsupported_arity_waits_witness :
    parse_redis_protocol ["*4", "$3", "BAR"] = .needMore :=
  unsupported_arity_waits "*4" ["$3", "BAR"] 4 (by decide) (by rfl)
    (by decide) (by decide) (by decide) (by decide)

/-- C8: for every complete valid frame, each proper leading portion of its
lines parses to None (the parser keeps waiting), the full line list parses
to Some command, and feeding the final line through the stream loop clears
the accumulation buffer. -/
theorem parser_incremental (lines : List String)
    (hv : validFrame lines = true) :
    (∀ k, k < lines.length → parse_redis_protocol (lines.take k) = .needMore) ∧
    (∃ v, parse_redis_protocol lines = .parsed v) ∧
    (∀ q l, q ++ [l] = lines → ∃ v, push_and_parse q l = ([], .parsed v)) := by
  have e1 : parseUsize (removeStars "*1") = some 1 := by rfl
  have e2 : parseUsize (removeStars "*2") = some 2 := by rfl
  have e3 : parseUsize (removeStars "*3") = some 3 := by rfl
  have e5 : parseUsize (removeStars "*5") = some 5 := by rfl
  suffices hs : (∀ k, k < lines.length →
      parse_redis_protocol (lines.take k) = .needMore) ∧
      (∃ v, parse_redis_protocol lines = .parsed v) by
    refine ⟨hs.1, hs.2, ?_⟩
    intro q l hql
    obtain ⟨v, hvp⟩ := hs.2
    refine ⟨v, push_and_parse_complete q l v ?_⟩
    rw [hql]
    exact hvp
  rcases lines with _ | ⟨a0, _ | ⟨a1, _ | ⟨a2, _ | ⟨a3, _ | ⟨a4, _ | ⟨a5,
    _ | ⟨a6, _ | ⟨a7, _ | ⟨a8, _ | ⟨a9, _ | ⟨a10, _ | ⟨a11, t⟩⟩⟩⟩⟩⟩⟩⟩⟩⟩⟩⟩
  · simp [validFrame] at hv
  · simp [validFrame] at hv
  · simp [validFrame] at hv
  · -- arity 1: [a0, a1, a2]
    simp only [validFrame, Bool.and_eq_true] at hv
    obtain ⟨⟨hh, -⟩, hc⟩ := hv
    have hh2 : a0 = "*1" := by exact eq_of_beq hh
    subst hh2
    obtain ⟨cmd, hcmd⟩ := Option.isSome_iff_exists.mp hc
    constructor
    · intro k hk
      have hk2 : k < 3 := by simpa using hk
      interval_cases k <;> rfl
    · refine ⟨⟨cmd, none, none, none⟩, ?_⟩
      simp [parse_redis_protocol, List.headI, e1, withCommand, hcmd]
  · simp [validFrame] at hv
  · -- arity 2: [a0, a1, a2, a3, a4]
    simp only [validFrame, Bool.and_eq_true] at hv
    obtain ⟨⟨⟨hh, -⟩, -⟩, hc⟩ := hv
    have hh2 : a0 = "*2" := by exact eq_of_beq hh
    subst hh2
    obtain ⟨cmd, hcmd⟩ := Option.isSome_iff_exists.mp hc
    constructor
    · intro k hk
      have hk2 : k < 5 := by simpa using hk
      interval_cases k <;> simp [parse_redis_protocol, List.headI, e2]
    · refine ⟨⟨cmd, none, some a4, none⟩, ?_⟩
      simp [parse_redis_protocol, List.headI, e2, withCommand, hcmd]
  · simp [validFrame] at hv
  · -- arity 3: [a0, a1, a2, a3, a4, a5, a6]
    simp only [validFrame, Bool.and_eq_true] at hv
    obtain ⟨⟨⟨⟨hh, -⟩, -⟩, -⟩, hc⟩ := hv
    have hh2 : a0 = "*3" := by exact eq_of_beq hh
    subst hh2
    obtain ⟨cmd, hcmd⟩ := Option.isSome_iff_exists.mp hc
    constructor
    · intro k hk
      have hk2 : k < 7 := by simpa using hk
      interval_cases k <;> simp [parse_redis_protocol, List.headI, e3]
    · refine ⟨⟨cmd, some a4, some a6, none⟩, ?_⟩
      simp [parse_redis_protocol, List.headI, e3, withCommand, hcmd]
  · simp [validFrame] at hv
  · simp [validFrame] at hv
  · simp [validFrame] at hv
  · -- arity 5: [a0, a1, a2, a3, a4, a5, a6, a7, a8, a9, a10]
    simp only [validFrame, Bool.and_eq_true] at hv
    obtain ⟨⟨⟨⟨⟨⟨⟨⟨hh, -⟩, -⟩, -⟩, -⟩, -⟩, hc⟩, -⟩, hms⟩ := hv
    have hh2 : a0 = "*5" := by exact eq_of_beq hh
    subst hh2
    obtain ⟨cmd, hcmd⟩ := Option.isSome_iff_exists.mp hc
    obtain ⟨msv, hmsv⟩ := Option.isSome_iff_exists.mp hms
    constructor
    · intro k hk
      have hk2 : k < 11 := by simpa using hk
      interval_cases k <;> simp [parse_redis_protocol, List.headI, e5]
    · refine ⟨⟨cmd, some a4, some a6, some (Duration.from_millis msv)⟩, ?_⟩
      simp [parse_redis_protocol, List.headI, e5, withCommand, hcmd, hmsv]
  · simp [validFrame] at hv

/-- Witness for the C8 theorem on the concrete ECHO frame: the frame is
valid, its three-line portion still parses to None, and feeding the final
line empties the buffer. -/
theorem parser_incremental_witness :
    validFrame ["*2", "$4", "ECHO", "$3", "hey"] = true ∧
    parse_redis_protocol (["*2", "$4", "ECHO", "$3", "hey"].take 3)
      = .needMore ∧
    (push_and_parse ["*2", "$4", "ECHO", "$3"] "hey").1 = [] := by
  have h := parser_incremental ["*2", "$4", "ECHO", "$3", "hey"] (by rfl)
  refine ⟨by rfl, h.1 3 (by decide), ?_⟩
  obtain ⟨v, hvp⟩ := h.2.2 ["*2", "$4", "ECHO", "$3"] "hey" rfl
  rw [hvp]

/-- C10: a successful add only creates or replaces the entry for its key:
the written snapshot maps the key to a fresh entry whose stored key field
equals the map key, and maps every other key to exactly the entry it had
in the prior snapshot. -/
theorem add_frame_effect (file : Option Json) (d0 : StorageData)
    (k v : String) (ttl : Option Duration) (now : SystemTime)
    (hread : read_store file = .store d0) :
    storage_add k v ttl file now true = .ok (add_entry d0 k v now ttl) ∧
    hmGet (add_entry d0 k v now ttl).data k = some ⟨k, v, now, ttl⟩ ∧
    ∀ k2, k2 ≠ k →
      hmGet (add_entry d0 k v now ttl).data k2 = hmGet d0.data k2 := by
  refine ⟨?_, ?_, ?_⟩
  · simp [storage_add, hread]
  · exact hmGet_hmInsert_same d0.data k ⟨k, v, now, ttl⟩
  · intro k2 hk2
    exact hmGet_hmInsert_other d0.data k k2 ⟨k, v, now, ttl⟩ hk2

/-- Witness for the C10 theorem: adding a second key leaves the first
key's entry untouched and stores the new entry under its own key. -/
theorem add_frame_effect_witness :
    storage_add "k" "v" none
      (some (encodeStorageData ⟨[("a", ⟨"a", "x", ⟨0, 0⟩, none⟩)]⟩))
      ⟨1, 0⟩ true
      = .ok (add_entry ⟨[("a", ⟨"a", "x", ⟨0, 0⟩, none⟩)]⟩ "k" "v" ⟨1, 0⟩ none) ∧
    hmGet (add_entry ⟨[("a", ⟨"a", "x", ⟨0, 0⟩, none⟩)]⟩ "k" "v" ⟨1, 0⟩ none).data "k"
      = some ⟨"k", "v", ⟨1, 0⟩, none⟩ ∧
    hmGet (add_entry ⟨[("a", ⟨"a", "x", ⟨0, 0⟩, none⟩)]⟩ "k" "v" ⟨1, 0⟩ none).data "a"
      = hmGet (⟨[("a", ⟨"a", "x", ⟨0, 0⟩, none⟩)]⟩ : StorageData).data "a" := by
  have h := add_frame_effect
    (some (encodeStorageData ⟨[("a", ⟨"a", "x", ⟨0, 0⟩, none⟩)]⟩))
    ⟨[("a", ⟨"a", "x", ⟨0, 0⟩, none⟩)]⟩ "k" "v" none ⟨1, 0⟩ (by rfl)
  exact ⟨h.1, h.2.1, h.2.2 "a" (by decide)⟩

end RedisRust
